import Mathlib

/-!
Verification of the mini-rag indexing/retrieval core against its
natural-language specification.  Each Python function relevant to a claim
is shallowly embedded as an executable Lean definition; theorems settle
the claims.  Strings are modelled as `List Char`, Python `None`-able
results as `Option`, and vendor API outcomes as explicit oracle
parameters.
-/

namespace MiniRag

/-- Python whitespace predicate used by `str.strip()` (ASCII fragment,
which covers every character the repository manipulates). -/
def isPySpace (c : Char) : Bool :=
  c = ' ' || c = '\t' || c = '\n' || c = '\r' || c = '\x0b' || c = '\x0c'

/-- Python `str.lstrip()`. -/
def pyLStrip (s : List Char) : List Char := s.dropWhile isPySpace

/-- Python `str.rstrip()`. -/
def pyRStrip (s : List Char) : List Char := (s.reverse.dropWhile isPySpace).reverse

/-- Python `str.strip()`: drop whitespace from both ends. -/
def pyStrip (s : List Char) : List Char := pyRStrip (pyLStrip s)

/-- `NLPController.create_collection_name` /
`NLPAsyncController.create_collection_name` (identical bodies):
the Python expression is the f-string concatenation followed by a strip
of the whole concatenation, `f"Collection_{project_id}".strip()`. -/
def create_collection_name (project_id : List Char) : List Char :=
  pyStrip ("Collection_".toList ++ project_id)

/-- The naming policy as the spec words it (section 4.3):
`"Collection_" + trim(projectId)`, the project id trimmed on BOTH sides
before concatenation.  Kept separate from `create_collection_name` so the
two can be compared. -/
def specCollectionName (project_id : List Char) : List Char :=
  "Collection_".toList ++ pyStrip project_id

/-- `CohereProvider.process_text` and `OpenAIProvider.process_text`
(identical bodies): `text[:self.default_input_max_tokens].strip()`. -/
def process_text (default_input_max_tokens : Nat) (text : List Char) : List Char :=
  pyStrip (text.take default_input_max_tokens)

/-- An OpenAI chat message dictionary, as built by
`OpenAIProvider.construct_prompt`. -/
structure OpenAIMessage where
  role : List Char
  content : List Char
deriving DecidableEq, Repr

/-- `OpenAIProvider.construct_prompt`: returns the dictionary
with the given role and the processed (truncated, stripped) prompt. -/
def construct_prompt (default_input_max_tokens : Nat) (prompt : List Char)
    (role : List Char) : OpenAIMessage :=
  { role := role, content := process_text default_input_max_tokens prompt }

/-- Starting indices produced by Python `range(0, n, batch_size)`
(for a positive step), used by both vector-store `insert_many`
implementations and both `embed_batch` implementations to cut the input
into sub-batches. -/
def batchStarts (n batch_size : Nat) : List Nat :=
  (List.range ((n + batch_size - 1) / batch_size)).map (fun k => k * batch_size)

/-- The arguments of one `insert_many` call on a Qdrant provider
(`QDrantProvider.insert_many` / `QDrantAsyncProvider.insert_many`; the
two share the same validation and success aggregation).  `uploadOk i`
is the outcome of the vendor upload call for the sub-batch starting at
input index `i` (the async variant dispatches the uploads concurrently
with `asyncio.gather`, but joins all of them and counts successes the
same way the sync loop does). -/
structure InsertManyCall (τ υ μ ρ : Type) where
  collection_exists : Bool
  texts : List τ
  vectors : List υ
  metadatas : Option (List μ)
  record_ids : Option (List ρ)
  batch_size : Nat
  uploadOk : Nat → Bool

/-- `metadatas` after the defaulting step
`if metadatas is None: metadatas = [None] * len(texts)`. -/
def defaultedMetas {τ υ μ ρ : Type} (c : InsertManyCall τ υ μ ρ) : List (Option μ) :=
  match c.metadatas with
  | none => List.replicate c.texts.length none
  | some l => l.map some

/-- `record_ids` after the defaulting step
`if record_ids is None: record_ids = [None] * len(texts)`. -/
def defaultedIds {τ υ μ ρ : Type} (c : InsertManyCall τ υ μ ρ) : List (Option ρ) :=
  match c.record_ids with
  | none => List.replicate c.texts.length none
  | some l => l.map some

/-- The validation
`len(texts) == len(vectors) == len(metadatas) == len(record_ids)`
performed after defaulting. -/
def lengthsOk {τ υ μ ρ : Type} (c : InsertManyCall τ υ μ ρ) : Bool :=
  c.texts.length == c.vectors.length &&
    c.vectors.length == (defaultedMetas c).length &&
    (defaultedMetas c).length == (defaultedIds c).length

/-- Observable outcome of an `insert_many` call: the returned boolean,
the sub-batch start indices for which an upload was attempted, and those
for which the upload succeeded. -/
structure InsertManyResult where
  ok : Bool
  attempted : List Nat
  succeeded : List Nat
deriving DecidableEq, Repr

/-- `QDrantProvider.insert_many` / `QDrantAsyncProvider.insert_many`:
missing collection or mismatched lengths return `False` before any
upload; otherwise every sub-batch is uploaded, successes are counted,
and the call returns `successful_batches > 0` — `False` only when ALL
sub-batches failed, `True` as soon as at least one succeeded (partial
failures are merely logged). -/
def insert_many {τ υ μ ρ : Type} (c : InsertManyCall τ υ μ ρ) : InsertManyResult :=
  if c.collection_exists = false then ⟨false, [], []⟩
  else if lengthsOk c = false then ⟨false, [], []⟩
  else
    let starts := batchStarts c.texts.length c.batch_size
    ⟨decide (0 < (starts.filter c.uploadOk).length), starts, starts.filter c.uploadOk⟩

/-- Outcome of one vendor embedding API attempt for one sub-batch:
success with the returned vectors, a rate-limit error (Cohere "429" /
OpenAI "rate_limit"), or any other exception. -/
inductive AttemptRes (V : Type) where
  | ok (vs : List V)
  | rateLimit
  | fatal

/-- `max_retries = 3` in both `embed_batch` implementations. -/
def max_retries : Nat := 3

/-- The retry loop `for attempt in range(max_retries)` shared by
`CohereProvider.embed_batch` and `OpenAIProvider.embed_batch`:
success breaks out with the vectors; a rate-limit error sleeps and
retries while `attempt < max_retries - 1`; any other error, or a
rate-limit on the last attempt, returns `None`.  `f a` is the outcome
of attempt number `a`; `remaining` counts the attempts still allowed. -/
def retryFrom {V : Type} (f : Nat → AttemptRes V) : Nat → Nat → Option (List V)
  | _, 0 => none
  | attempt, r + 1 =>
    match f attempt with
    | .ok vs => some vs
    | .fatal => none
    | .rateLimit => if 0 < r then retryFrom f (attempt + 1) r else none

/-- Result of the whole retry loop for one sub-batch. -/
def subBatchEmbed {V : Type} (f : Nat → AttemptRes V) : Option (List V) :=
  retryFrom f 0 max_retries

/-- The sub-batch loop of `embed_batch`, walking the sub-batch start
indices in order; on the first sub-batch whose retries are exhausted the
whole call returns `None`, discarding the vectors accumulated so far. -/
def embedBatchesGo {V : Type} (oracle : Nat → Nat → AttemptRes V) :
    List Nat → Option (List V)
  | [] => some []
  | s :: rest =>
    match subBatchEmbed (oracle s) with
    | none => none
    | some vs =>
      match embedBatchesGo oracle rest with
      | none => none
      | some tl => some (vs ++ tl)

/-- `CohereProvider.embed_batch` / `OpenAIProvider.embed_batch`:
cut `texts` into sub-batches of `batch_size`, embed each with the retry
loop, and return the concatenation, or `None` if any sub-batch failed.
`oracle s a` is the API outcome for the sub-batch starting at index `s`
on attempt `a`. -/
def embed_batch {τ V : Type} (texts : List τ) (batch_size : Nat)
    (oracle : Nat → Nat → AttemptRes V) : Option (List V) :=
  embedBatchesGo oracle (batchStarts texts.length batch_size)

/-- Python truthiness of an optional string: `None` and `""` are falsy. -/
def pyTruthyStr (o : Option (List Char)) : Bool :=
  match o with
  | none => false
  | some s => !s.isEmpty

/-- The state of an `OpenAIProvider` relevant to `generate_text`:
whether `self.client` is truthy (it always is after `__init__`) and the
configured generation model id (`None` until `set_generation_model`). -/
structure OpenAIGenState where
  client_set : Bool
  generation_model_id : Option (List Char)
  default_input_max_tokens : Nat

/-- The role string `OpenAIEnums.USER.value`. -/
def USER_ROLE : List Char := "user".toList

/-- The role string `OpenAIEnums.SYSTEM.value`. -/
def SYSTEM_ROLE : List Char := "system".toList

/-- `OpenAIProvider.generate_text`: the two unconfigured-state guards
return `None` leaving `chat_history` untouched; otherwise the
constructed user message is appended to the caller's `chat_history`
list IN PLACE and the API is called on the grown list.  The pair
returned is (call result, final state of the caller's list); an API
exception is modelled by `Except.error` from `api` — the append has
already happened either way. -/
def generate_text (st : OpenAIGenState) (prompt : List Char)
    (chat_history : List OpenAIMessage)
    (api : List OpenAIMessage → Except Unit (Option (List Char))) :
    Except Unit (Option (List Char)) × List OpenAIMessage :=
  if st.client_set = false then (Except.ok none, chat_history)
  else if pyTruthyStr st.generation_model_id = false then (Except.ok none, chat_history)
  else
    let history := chat_history ++
      [construct_prompt st.default_input_max_tokens prompt USER_ROLE]
    (api history, history)

/-- A retrieved search hit (`{text, score}`); scores are opaque here. -/
structure RetrievedDoc where
  text : List Char
  score : Int
deriving DecidableEq, Repr

/-- What `NLPController.search_vector_db_collection` can return:
the Python literal `False`, or a (serialized) list of documents. -/
inductive SyncSearchOut where
  | pyFalse
  | docs (l : List RetrievedDoc)
deriving DecidableEq, Repr

/-- `NLPController.search_vector_db_collection` (sync): an absent or
empty query vector returns `False`; an empty result list also returns
`False`; otherwise the results are returned.  `vector` is the outcome
of `embedding_client.embed_text` and `searchFn` the vector store's
`search_by_vector`. -/
def search_vector_db_collection_sync (vector : Option (List Int))
    (searchFn : List Int → List RetrievedDoc) : SyncSearchOut :=
  match vector with
  | none => .pyFalse
  | some v =>
    if v.isEmpty then .pyFalse
    else
      let results := searchFn v
      if results.isEmpty then .pyFalse else .docs results

/-- `NLPAsyncController.search_vector_db_collection` (async): an absent
or empty query vector returns `[]`; otherwise
`results if results else []`. -/
def search_vector_db_collection_async (vector : Option (List Int))
    (searchFn : List Int → List RetrievedDoc) : List RetrievedDoc :=
  match vector with
  | none => []
  | some v =>
    if v.isEmpty then []
    else
      let results := searchFn v
      if results.isEmpty then [] else results

/-- Collaborators of `NLPAsyncController.asnwer_rag_question`:
the query-embedding outcome, the vector store search, the three
template lookups (each returning `Optional[str]`), the generation
provider's truncation limit, and `generate_text` as actually invoked
(full prompt and chat history in, optional answer out). -/
structure RagEnv where
  vector : Option (List Int)
  searchFn : List Int → List RetrievedDoc
  system_prompt : Option (List Char)
  doc_prompt : Nat → List Char → Option (List Char)
  footer_prompt : Option (List Char)
  input_max_tokens : Nat
  generateFn : List Char → List OpenAIMessage → Option (List Char)

/-- Outcome of `asnwer_rag_question`: either an exception escaped
(a `None` template fed into `construct_prompt` or into `"\n\n".join`
raises `TypeError`), or the returned triple. -/
inductive RagOutcome where
  | raised
  | result (answer full_prompt : Option (List Char))
      (chat_history : Option (List OpenAIMessage))

/-- `NLPAsyncController.asnwer_rag_question`.  Returns the outcome
paired with whether `generation_client.generate_text` was invoked.
Mirrors the code order: search; short-circuit on no documents; system
prompt; per-document prompts (rendered through the generation
provider's `process_text`); `None` renderings filtered out; fallback
document text; footer; chat history from the system prompt; full
prompt; generation. -/
def asnwer_rag_question (env : RagEnv) : RagOutcome × Bool :=
  let retrieved := search_vector_db_collection_async env.vector env.searchFn
  if retrieved.isEmpty then (.result none none none, false)
  else
    let doc_prompts_list := retrieved.enum.map
      (fun p => env.doc_prompt (p.1 + 1) (process_text env.input_max_tokens p.2.text))
    let filtered_prompts := doc_prompts_list.filterMap id
    let documents_prompts :=
      if filtered_prompts.isEmpty then "No relevant context found.".toList
      else List.intercalate "\n".toList filtered_prompts
    match env.system_prompt with
    | none => (.raised, false)
    | some sys =>
      let chat_history := [construct_prompt env.input_max_tokens sys SYSTEM_ROLE]
      match env.footer_prompt with
      | none => (.raised, false)
      | some footer =>
        let full_prompt := List.intercalate "\n\n".toList [documents_prompts, footer]
        (.result (env.generateFn full_prompt chat_history) (some full_prompt)
          (some chat_history), true)

/-- A stored chunk as far as the indexing route needs it. -/
structure Chunk where
  chunk_text : List Char
  chunk_metadata : Option (List Char)
deriving DecidableEq, Repr

/-- `ChunkModel.get_all_chunks_in_a_project`: a single unpaginated
Mongo query — returns ALL chunks of the project when there are any and
Python `None` otherwise.  It accepts NO `page_no` parameter, although
the indexing route passes one. -/
def get_all_chunks_in_a_project (records : List Chunk) : Option (List Chunk) :=
  if 0 < records.length then some records else none

/-- Observable outcome of the pagination loop of
`routes/nlp.py::index_project`. -/
inductive IndexOutcome where
  | success (inserted_items_count : Nat) (pages_processed : Nat)
  | insertErrorResponse
  | pyTypeError
  | fuelExhausted
deriving DecidableEq, Repr

/-- The `while has_records` loop of `routes/nlp.py::index_project`,
under the CHARITABLE reading in which the `page_no=page_no` keyword the
route passes is ignored (in actual Python the call raises `TypeError:
unexpected keyword argument` at once, since
`get_all_chunks_in_a_project` takes no such parameter).  Every
iteration fetches `get_all_chunks_in_a_project` again; a `None` page
hits `if len(page_chunks):` and raises `TypeError` (`len(None)`);
a non-empty page is indexed and the loop repeats with the SAME query.
`fuel` bounds the iterations we unroll; `insertOk` is the outcome of
`nlp_controller.index_into_vector_db` for a page. -/
def indexLoop (store : List Chunk) (insertOk : Bool) :
    Nat → Nat → Nat → Nat → IndexOutcome
  | 0, _, _, _ => .fuelExhausted
  | fuel + 1, page_no, inserted, pages =>
    match get_all_chunks_in_a_project store with
    | none => .pyTypeError
    | some page_chunks =>
      if page_chunks.isEmpty then .success inserted pages
      else if insertOk then
        indexLoop store insertOk fuel (page_no + 1)
          (inserted + page_chunks.length) (pages + 1)
      else .insertErrorResponse

/-- A template module attribute value, as inspected by
`TemplateParser.get`: a `string.Template` (modelled by its substitution
function), a plain string, or anything else. -/
inductive TemplateValue where
  | tmpl (render : List (List Char × List Char) → List Char)
  | str (s : List Char)
  | other

/-- The state of a `TemplateParser`: the language resolved at
construction, the default language, which locale files exist on disk,
and what `importlib` yields for each (language, group) — `none` models
an import failure. -/
structure TemplateParserState where
  language : List Char
  default_language : List Char
  file_exists : List Char → List Char → Bool
  modules : List Char → List Char → Option (List Char → Option TemplateValue)

/-- `TemplateParser._resolve_targeted_language`: preferred language
first, then the default language, else `None`. -/
def resolve_targeted_language (st : TemplateParserState) (group : List Char) :
    Option (List Char) :=
  if st.file_exists st.language group then some st.language
  else if st.file_exists st.default_language group then some st.default_language
  else none

/-- What a `TemplateParser.get` call can produce. -/
inductive TemplateGetResult where
  | noneValue
  | rendered (s : List Char)
  | templateNotFound
  | invalidTemplate
  | importError
deriving DecidableEq, Repr

/-- `TemplateParser.get`: empty group or key returns `None`; an
unresolvable group (in NEITHER language) logs a warning and returns
`None`; a failed import re-raises `ImportError` (the in-function
`raise TemplateNotFound` guard for a `None` module is unreachable,
`_import_template_module` never returns `None`); a missing key raises
`TemplateNotFound`; a `string.Template` value is substituted, a plain
string returned as is, anything else raises `InvalidTemplate`. -/
def TemplateParser_get (st : TemplateParserState) (group key : List Char)
    (vars : List (List Char × List Char)) : TemplateGetResult :=
  if group.isEmpty || key.isEmpty then .noneValue
  else
    match resolve_targeted_language st group with
    | none => .noneValue
    | some lang =>
      match st.modules lang group with
      | none => .importError
      | some moduleAttrs =>
        match moduleAttrs key with
        | none => .templateNotFound
        | some (.tmpl render) => .rendered (render vars)
        | some (.str s) => .rendered s
        | some .other => .invalidTemplate

/-- A concrete parser state used to instantiate fallback statements:
preferred language "ar", default "en", only the English "rag" locale
file present on disk, every import failing. -/
def exampleParserState : TemplateParserState :=
  ⟨"ar".toList, "en".toList,
    fun l g => l == "en".toList && g == "rag".toList,
    fun _ _ => none⟩

/- ## Generic list lemmas used by the naming proofs -/

theorem dropWhile_append_of_nil {α : Type} {p : α → Bool} {xs : List α}
    (h : List.dropWhile p xs = []) (ys : List α) :
    List.dropWhile p (xs ++ ys) = List.dropWhile p ys := by
  induction xs with
  | nil => simp
  | cons a t ih =>
    by_cases hpa : p a
    · rw [List.cons_append, List.dropWhile_cons_of_pos hpa]
      exact ih (by rwa [List.dropWhile_cons_of_pos hpa] at h)
    · rw [List.dropWhile_cons_of_neg hpa] at h
      exact absurd h (by simp)

theorem dropWhile_append_of_ne_nil {α : Type} {p : α → Bool} {xs : List α}
    (h : List.dropWhile p xs ≠ []) (ys : List α) :
    List.dropWhile p (xs ++ ys) = List.dropWhile p xs ++ ys := by
  induction xs with
  | nil => exact absurd rfl h
  | cons a t ih =>
    by_cases hpa : p a
    · rw [List.cons_append, List.dropWhile_cons_of_pos hpa,
        List.dropWhile_cons_of_pos hpa]
      exact ih (by rwa [List.dropWhile_cons_of_pos hpa] at h)
    · rw [List.cons_append, List.dropWhile_cons_of_neg hpa,
        List.dropWhile_cons_of_neg hpa, List.cons_append]

theorem length_dropWhile_le_local {α : Type} (p : α → Bool) (l : List α) :
    (List.dropWhile p l).length ≤ l.length := by
  induction l with
  | nil => simp
  | cons a t ih =>
    by_cases hpa : p a
    · rw [List.dropWhile_cons_of_pos hpa]
      exact ih.trans (Nat.le_succ _)
    · rw [List.dropWhile_cons_of_neg hpa]

theorem length_pyRStrip_le (s : List Char) : (pyRStrip s).length ≤ s.length := by
  have h := length_dropWhile_le_local isPySpace s.reverse
  simpa [pyRStrip] using h

theorem length_pyStrip_le (s : List Char) : (pyStrip s).length ≤ s.length := by
  have h1 := length_pyRStrip_le (pyLStrip s)
  have h2 := length_dropWhile_le_local isPySpace s
  exact h1.trans (by simpa [pyLStrip] using h2)

theorem pyRStrip_append (a : List Char) (ha : a ≠ [])
    (hlast : Option.all (fun c => ! isPySpace c) a.reverse.head? = true)
    (p : List Char) :
    pyRStrip (a ++ p) = a ++ pyRStrip p := by
  unfold pyRStrip
  rw [List.reverse_append]
  by_cases h : List.dropWhile isPySpace p.reverse = []
  · rw [dropWhile_append_of_nil h]
    have hrev : a.reverse ≠ [] := by simpa using ha
    obtain ⟨c, t, hct⟩ := List.exists_cons_of_ne_nil hrev
    have hc : isPySpace c = false := by
      rw [hct] at hlast
      simpa using hlast
    rw [hct, List.dropWhile_cons_of_neg (by simp [hc]), ← hct]
    simp [h]
  · rw [dropWhile_append_of_ne_nil h]
    simp

theorem pyLStrip_of_head_not_space (c : Char) (hc : isPySpace c = false)
    (rest : List Char) : pyLStrip (c :: rest) = c :: rest := by
  unfold pyLStrip
  exact List.dropWhile_cons_of_neg (by simp [hc])

/-- C2 counterexample: for the project id " x" (leading whitespace) the
code produces "Collection_ x" while the spec formula
"Collection_" + trim(P) produces "Collection_x"; the code strips the
whole concatenation, so the leading whitespace of the project id
survives behind the underscore. -/
theorem create_collection_name_cex :
    create_collection_name " x".toList ≠ specCollectionName " x".toList := by
  decide

/-- C2 (amended): `create_collection_name P` equals "Collection_" ++ P
with only the TRAILING whitespace of P trimmed (the leading strip is a
no-op because the concatenation starts with the letter C of the literal
prefix); as a Lean function of P it is pure, so two calls with the same
P give the same name. -/
theorem create_collection_name_eq (project_id : List Char) :
    create_collection_name project_id =
      "Collection_".toList ++ pyRStrip project_id := by
  unfold create_collection_name pyStrip
  have hA : "Collection_".toList = 'C' :: "ollection_".toList := by decide
  have hl : pyLStrip ("Collection_".toList ++ project_id) =
      "Collection_".toList ++ project_id := by
    rw [hA, List.cons_append,
      pyLStrip_of_head_not_space 'C' (by decide), ← List.cons_append, ← hA]
  rw [hl]
  exact pyRStrip_append _ (by decide) (by decide) project_id

/-- C10: `process_text` returns the first `default_input_max_tokens`
characters of the text with surrounding whitespace stripped, hence its
result has length at most `default_input_max_tokens`; every message
content produced by `construct_prompt` is such a processed text and so
obeys the same bound. -/
theorem process_text_truncation_bound (n : Nat) (text : List Char) :
    process_text n text = pyStrip (text.take n) ∧
    (process_text n text).length ≤ n ∧
    (∀ prompt role, (construct_prompt n prompt role).content = process_text n prompt) := by
  refine ⟨rfl, ?_, fun _ _ => rfl⟩
  have h1 := length_pyStrip_le (text.take n)
  have h2 : (text.take n).length ≤ n := by
    rw [List.length_take]
    exact Nat.min_le_left _ _
  exact h1.trans h2

/- ## Helper lemmas for the batch theorems -/

theorem filter_length_pos_iff_any {α : Type} (p : α → Bool) (l : List α) :
    decide (0 < (l.filter p).length) = true ↔ l.any p = true := by
  rw [decide_eq_true_iff]
  rw [List.length_pos]
  constructor
  · intro h
    obtain ⟨x, hx⟩ := List.exists_mem_of_ne_nil _ h
    have hmem := List.mem_filter.mp hx
    exact List.any_eq_true.mpr ⟨x, hmem.1, hmem.2⟩
  · intro h
    obtain ⟨x, hx, hpx⟩ := List.any_eq_true.mp h
    intro hnil
    have : x ∈ l.filter p := List.mem_filter.mpr ⟨hx, hpx⟩
    rw [hnil] at this
    exact absurd this (List.not_mem_nil x)

theorem embedBatchesGo_none_iff {V : Type} (oracle : Nat → Nat → AttemptRes V)
    (l : List Nat) :
    embedBatchesGo oracle l = none ↔ ∃ s ∈ l, subBatchEmbed (oracle s) = none := by
  induction l with
  | nil => simp [embedBatchesGo]
  | cons s rest ih =>
    cases hs : subBatchEmbed (oracle s) with
    | none =>
      simp only [embedBatchesGo, hs]
      constructor
      · intro _
        exact ⟨s, List.mem_cons_self s rest, hs⟩
      · intro _
        trivial
    | some vs =>
      cases hr : embedBatchesGo oracle rest with
      | none =>
        simp only [embedBatchesGo, hs, hr]
        constructor
        · intro _
          obtain ⟨x, hx, hfx⟩ := ih.mp hr
          exact ⟨x, List.mem_cons_of_mem _ hx, hfx⟩
        · intro _
          trivial
      | some tl =>
        simp only [embedBatchesGo, hs, hr]
        constructor
        · intro hcontra
          exact absurd hcontra (by simp)
        · rintro ⟨x, hx, hfx⟩
          rcases List.mem_cons.mp hx with hxs | hx2
          · rw [hxs, hs] at hfx
            exact absurd hfx (by simp)
          · have hrest := ih.mpr ⟨x, hx2, hfx⟩
            rw [hr] at hrest
            exact absurd hrest (by simp)

theorem indexLoop_cons_fuelExhausted (c : Chunk) (cs : List Chunk) :
    ∀ fuel page_no inserted pages : Nat,
      indexLoop (c :: cs) true fuel page_no inserted pages =
        IndexOutcome.fuelExhausted := by
  intro fuel
  induction fuel with
  | zero =>
    intro _ _ _
    rfl
  | succ n ih =>
    intro page_no inserted pages
    unfold indexLoop
    have hget : get_all_chunks_in_a_project (c :: cs) = some (c :: cs) := by
      simp [get_all_chunks_in_a_project]
    rw [hget]
    simp only [List.isEmpty_cons, if_true]
    exact ih _ _ _

/- ## Claim theorems -/

/-- C1 counterexample: a two-text `insert_many` call with batch size 1
where the upload of the sub-batch starting at index 0 succeeds and the
one starting at index 1 fails still reports success (`ok = true`),
although not every attempted sub-batch succeeded. -/
theorem insert_many_partial_success_cex :
    (insert_many (⟨true, ["a", "b"], [[1], [2]], none, none, 1, fun i => i == 0⟩ :
        InsertManyCall String (List Int) Unit Nat)).ok = true ∧
      (insert_many (⟨true, ["a", "b"], [[1], [2]], none, none, 1, fun i => i == 0⟩ :
          InsertManyCall String (List Int) Unit Nat)).succeeded ≠
        (insert_many (⟨true, ["a", "b"], [[1], [2]], none, none, 1, fun i => i == 0⟩ :
            InsertManyCall String (List Int) Unit Nat)).attempted := by
  decide

/-- C1 (amended): `insert_many` reports success iff the collection
exists, the input lengths match after defaulting, and AT LEAST ONE
sub-batch upload succeeded; a call whose sub-batches partially fail is
still reported as success (only total failure yields `False`). -/
theorem insert_many_success_iff {τ υ μ ρ : Type} (c : InsertManyCall τ υ μ ρ) :
    (insert_many c).ok = true ↔
      c.collection_exists = true ∧ lengthsOk c = true ∧
        (batchStarts c.texts.length c.batch_size).any c.uploadOk = true := by
  unfold insert_many
  by_cases h1 : c.collection_exists = false
  · simp [h1]
  · have h1t : c.collection_exists = true := by
      cases hc : c.collection_exists
      · exact absurd hc h1
      · rfl
    rw [if_neg h1]
    by_cases h2 : lengthsOk c = false
    · simp [h2]
    · have h2t : lengthsOk c = true := by
        cases hl : lengthsOk c
        · exact absurd hl h2
        · rfl
      rw [if_neg h2]
      simp only [h1t, h2t, true_and]
      exact filter_length_pos_iff_any c.uploadOk _

/-- C9: an `insert_many` call whose texts, vectors, metadatas and
record ids do not all have the same length after defaulting returns
`False` with no upload attempted (the collection is untouched). -/
theorem insert_many_length_mismatch {τ υ μ ρ : Type} (c : InsertManyCall τ υ μ ρ)
    (h : lengthsOk c = false) :
    insert_many c = ⟨false, [], []⟩ := by
  unfold insert_many
  by_cases h1 : c.collection_exists = false
  · rw [if_pos h1]
  · rw [if_neg h1, if_pos h]

/-- C9 witness: one text against zero vectors is a mismatch, and the
call returns `False` having attempted nothing. -/
theorem insert_many_length_mismatch_witness :
    lengthsOk (⟨true, ["a"], [], none, none, 50, fun _ => true⟩ :
        InsertManyCall String (List Int) Unit Nat) = false ∧
      insert_many (⟨true, ["a"], [], none, none, 50, fun _ => true⟩ :
          InsertManyCall String (List Int) Unit Nat) = ⟨false, [], []⟩ :=
  ⟨by decide, insert_many_length_mismatch _ (by decide)⟩

/-- C6: `embed_batch` returns `None` exactly when some sub-batch fails
after its retries are exhausted — in particular it never returns a
partial vector list for the sub-batches that succeeded. -/
theorem embed_batch_all_or_nothing {τ V : Type} (texts : List τ)
    (batch_size : Nat) (oracle : Nat → Nat → AttemptRes V) :
    embed_batch texts batch_size oracle = none ↔
      ∃ s ∈ batchStarts texts.length batch_size,
        subBatchEmbed (oracle s) = none :=
  embedBatchesGo_none_iff oracle _

/-- C8 counterexample: on a provider whose generation model was never
set (the state every `OpenAIProvider` is in right after `__init__`),
`generate_text` returns early and the caller's `chat_history` list is
unchanged — length 0, not 1. -/
theorem generate_text_unconfigured_cex :
    (generate_text ⟨true, none, 1000⟩ "hi".toList []
        (fun _ => Except.ok none)).2 = ([] : List OpenAIMessage) ∧
      (generate_text ⟨true, none, 1000⟩ "hi".toList []
          (fun _ => Except.ok none)).2.length ≠
        ([] : List OpenAIMessage).length + 1 := by
  constructor
  · rfl
  · decide

/-- C8 (amended): whenever the client is set and a generation model is
configured (truthy model id), `generate_text` appends exactly one
user-role message — the constructed prompt — to the caller's
`chat_history` in place before calling the API, so the caller's list is
one element longer afterwards. -/
theorem generate_text_appends_one_user_message (st : OpenAIGenState)
    (prompt : List Char) (chat_history : List OpenAIMessage)
    (api : List OpenAIMessage → Except Unit (Option (List Char)))
    (hc : st.client_set = true)
    (hm : pyTruthyStr st.generation_model_id = true) :
    (generate_text st prompt chat_history api).2 =
      chat_history ++
        [construct_prompt st.default_input_max_tokens prompt USER_ROLE] ∧
      (generate_text st prompt chat_history api).2.length =
        chat_history.length + 1 := by
  unfold generate_text
  simp [hc, hm]

/-- C8 witness: a configured provider at a concrete call. -/
theorem generate_text_appends_one_user_message_witness :
    ((true : Bool) = true ∧ pyTruthyStr (some "gpt-4".toList) = true) ∧
      ((generate_text ⟨true, some "gpt-4".toList, 1000⟩ "hi".toList []
          (fun _ => Except.ok (some "ok".toList))).2 =
        [] ++ [construct_prompt 1000 "hi".toList USER_ROLE] ∧
        (generate_text ⟨true, some "gpt-4".toList, 1000⟩ "hi".toList []
            (fun _ => Except.ok (some "ok".toList))).2.length =
          ([] : List OpenAIMessage).length + 1) :=
  ⟨⟨rfl, by decide⟩,
    generate_text_appends_one_user_message ⟨true, some "gpt-4".toList, 1000⟩
      "hi".toList [] (fun _ => Except.ok (some "ok".toList)) rfl (by decide)⟩

/-- C4 counterexample: the SYNC controller's search returns the Python
literal `False` — not the empty list — when the embedding step yields no
vector; `False` is a sentinel distinct from every document-list value. -/
theorem search_sync_false_sentinel_cex :
    search_vector_db_collection_sync none (fun _ => []) = SyncSearchOut.pyFalse ∧
      SyncSearchOut.pyFalse ≠ SyncSearchOut.docs [] := by
  constructor
  · rfl
  · decide

/-- C4 (amended): when the query embedding is absent or empty, the
ASYNC controller's search returns `[]` (a valid no-results outcome, no
exception), while the SYNC controller's returns the sentinel `False`
instead of a list. -/
theorem search_empty_embedding_behavior (vector : Option (List Int))
    (searchFn : List Int → List RetrievedDoc)
    (h : vector = none ∨ vector = some []) :
    search_vector_db_collection_async vector searchFn = [] ∧
      search_vector_db_collection_sync vector searchFn =
        SyncSearchOut.pyFalse := by
  rcases h with rfl | rfl
  · exact ⟨rfl, rfl⟩
  · exact ⟨rfl, rfl⟩

/-- C4 witness: the empty-embedding case at a concrete store. -/
theorem search_empty_embedding_behavior_witness :
    ((none : Option (List Int)) = none ∨ (none : Option (List Int)) = some []) ∧
      (search_vector_db_collection_async none (fun _ => []) = [] ∧
        search_vector_db_collection_sync none (fun _ => []) =
          SyncSearchOut.pyFalse) :=
  ⟨Or.inl rfl, search_empty_embedding_behavior none (fun _ => []) (Or.inl rfl)⟩

/-- C7: when retrieval returns no documents, `asnwer_rag_question`
returns the all-`None` triple and the generation provider's
`generate_text` is never invoked. -/
theorem answer_rag_short_circuit (env : RagEnv)
    (h : search_vector_db_collection_async env.vector env.searchFn = []) :
    asnwer_rag_question env = (RagOutcome.result none none none, false) := by
  unfold asnwer_rag_question
  rw [h]
  rfl

/-- C7 witness: an environment whose query embedding fails, so search
retrieves nothing. -/
theorem answer_rag_short_circuit_witness :
    search_vector_db_collection_async
        (RagEnv.mk none (fun _ => []) (some "sys".toList) (fun _ _ => none)
          (some "foot".toList) 1000 (fun _ _ => none)).vector
        (RagEnv.mk none (fun _ => []) (some "sys".toList) (fun _ _ => none)
          (some "foot".toList) 1000 (fun _ _ => none)).searchFn = [] ∧
      asnwer_rag_question
          (RagEnv.mk none (fun _ => []) (some "sys".toList) (fun _ _ => none)
            (some "foot".toList) 1000 (fun _ _ => none)) =
        (RagOutcome.result none none none, false) :=
  ⟨rfl,
    answer_rag_short_circuit
      (RagEnv.mk none (fun _ => []) (some "sys".toList) (fun _ _ => none)
        (some "foot".toList) 1000 (fun _ _ => none)) rfl⟩

/-- C3: the indexing loop against the actual `ChunkModel` (which
ignores pagination and returns `None` for an empty project) never
realizes the spec's contract: an empty chunk store makes the first
iteration raise `TypeError` (`len(None)`) instead of returning
inserted=0 / pages=0, and a non-empty store makes the loop re-fetch the
same full chunk list forever (no fuel suffices). -/
theorem index_project_pagination_bug :
    (∀ fuel : Nat,
        indexLoop [] true (fuel + 1) 1 0 0 = IndexOutcome.pyTypeError) ∧
      (∀ (fuel : Nat) (c : Chunk) (cs : List Chunk),
        indexLoop (c :: cs) true fuel 1 0 0 = IndexOutcome.fuelExhausted) ∧
      IndexOutcome.pyTypeError ≠ IndexOutcome.success 0 0 := by
  refine ⟨fun fuel => rfl, fun fuel c cs => indexLoop_cons_fuelExhausted c cs fuel 1 0 0, by decide⟩

/-- C5 counterexample: a group present in NEITHER language locale makes
`get` return the sentinel `None` (after a logged warning) — it does not
raise `TemplateNotFound`. -/
theorem template_get_missing_group_cex :
    TemplateParser_get
        ⟨"ar".toList, "en".toList, fun _ _ => false, fun _ _ => none⟩
        "rag".toList "system_prompt".toList [] = TemplateGetResult.noneValue ∧
      TemplateGetResult.noneValue ≠ TemplateGetResult.templateNotFound := by
  constructor
  · rfl
  · decide

/-- C5 (amended): template resolution checks the preferred language's
group file first and falls back to the default language's; when the
group file exists in neither language, `get` returns the non-error
sentinel `None` rather than raising `TemplateNotFound` (which is
reserved for a key missing inside a resolved group module). -/
theorem template_resolution_fallback (st : TemplateParserState)
    (group key : List Char) (vars : List (List Char × List Char))
    (hg : group.isEmpty = false) (hk : key.isEmpty = false) :
    (st.file_exists st.language group = true →
      resolve_targeted_language st group = some st.language) ∧
      (st.file_exists st.language group = false →
        st.file_exists st.default_language group = true →
        resolve_targeted_language st group = some st.default_language) ∧
      (st.file_exists st.language group = false →
        st.file_exists st.default_language group = false →
        TemplateParser_get st group key vars = TemplateGetResult.noneValue) := by
  refine ⟨?_, ?_, ?_⟩
  · intro h
    simp [resolve_targeted_language, h]
  · intro h1 h2
    simp [resolve_targeted_language, h1, h2]
  · intro h1 h2
    have hres : resolve_targeted_language st group = none := by
      simp [resolve_targeted_language, h1, h2]
    simp [TemplateParser_get, hg, hk, hres]

/-- C5 witness: a parser preferring "ar" with default "en" where only
the English "rag" locale file exists. -/
theorem template_resolution_fallback_witness :
    ("rag".toList.isEmpty = false ∧ "system_prompt".toList.isEmpty = false) ∧
      ((exampleParserState.file_exists exampleParserState.language
          "rag".toList = true →
        resolve_targeted_language exampleParserState "rag".toList =
          some exampleParserState.language) ∧
        (exampleParserState.file_exists exampleParserState.language
            "rag".toList = false →
          exampleParserState.file_exists exampleParserState.default_language
            "rag".toList = true →
          resolve_targeted_language exampleParserState "rag".toList =
            some exampleParserState.default_language) ∧
        (exampleParserState.file_exists exampleParserState.language
            "rag".toList = false →
          exampleParserState.file_exists exampleParserState.default_language
            "rag".toList = false →
          TemplateParser_get exampleParserState "rag".toList
            "system_prompt".toList [] = TemplateGetResult.noneValue)) :=
  ⟨⟨by decide, by decide⟩,
    template_resolution_fallback exampleParserState "rag".toList
      "system_prompt".toList [] (by decide) (by decide)⟩

end MiniRag
